import Mathlib

/-!
Shallow embedding of the call-serialization / error-translation / value-retrieval
layer of `src/macros.rs` (hdf5-rs).

The source file defines:
- `fail!`, `ensure!`, `try_ref_clone!`, `h5try!` — propagation combinators that
  early-return from the enclosing operation; modelled here in continuation style
  over `Except` (the early `return` becomes ignoring the continuation).
- `h5lock!` / `h5call!` — the global reentrant-mutex wrapper and the checked call.
  `crate::sync::sync` and `crate::error::h5check` are not part of the given source
  tree, so they are modelled from the spec (sections 4.1 and 4.2).
- the `H5Get` trait, its `h5get_d` default method, the `h5get!` / `h5get_d!`
  macros and the `impl_h5get!` instantiations for arities 1..4.  Foreign getter
  functions of shape `status = f(id, out1*, .., outN*)` are embedded as pure
  functions taking the initial contents of the output slots and returning the
  status together with the final contents of the slots.
-/

/-- Raw HDF5 identifier type (`hid_t`): an integer handle. -/
abbrev hid_t := Int

/-- Raw HDF5 status type (`herr_t`): negative means failure. -/
abbrev herr_t := Int

/-- The unified error value.  Modelled from the spec: "ErrorValue: captures the
diagnostic state at the moment of failure; must be cloneable … and convertible
into a unified error type".  We keep only the human-readable message, which is
all the claims refer to. -/
structure H5Error where
  msg : String
deriving DecidableEq, Repr

/-- `Clone::clone` on the error value: a structural copy of a plain value type. -/
def H5Error.clone (e : H5Error) : H5Error := H5Error.mk e.msg

/-- The generic from-conversion (`From::from`) unifying low-level error kinds
into whatever error type a call site declares. -/
class RFrom (α : Type) (β : Type) where
  fromVal : α → β

instance : RFrom String H5Error := ⟨H5Error.mk⟩

instance : RFrom H5Error H5Error := ⟨fun e => e⟩

/-- Modelled from the spec (§4.2): the diagnostic subsystem's "construct an
error value for the most recent failure".  The concrete diagnostic text is
external to this layer; we use a fixed representative value. -/
def h5errorStack : H5Error := H5Error.mk "HDF5 library error"

/-- Modelled from the spec (§4.2): `check(raw_status) -> CallResult<RawStatusCode>`.
Negative status: consult the diagnostic subsystem and return `Err`; non-negative:
return the status unchanged as `Ok` (`crate::error::h5check` is not under the
given source tree). -/
def h5check (status : herr_t) : Except H5Error herr_t :=
  if status < 0 then .error h5errorStack else .ok status

/-- `format!("msg {}", 42)`-style formatting with a single positional hole:
the text before the hole, the argument, the text after the hole. -/
def fmt1 (pre : String) (arg : Nat) (post : String) : String :=
  pre ++ toString arg ++ post

/-- `fail!($err)`: `return Err(From::from($err))` — early return from the
enclosing operation with the converted error value. -/
def failWith {ε E α : Type} [RFrom ε E] (err : ε) : Except E α :=
  .error (RFrom.fromVal err)

/-- `ensure!($expr, $err)` (plain two-argument form) followed by the rest of the
enclosing operation: `if !($expr) { fail!($err); }` — the continuation `rest`
is the code after the macro in the enclosing operation. -/
def ensureE {ε E α : Type} [RFrom ε E] (cond : Bool) (err : ε)
    (rest : Except E α) : Except E α :=
  if !cond then failWith err else rest

/-- `ensure!($expr, $fmt, $args…)` (format form) followed by the rest of the
enclosing operation: `if !($expr) { fail!(format!($fmt, $($arg)*)); }`. -/
def ensureFmt {E α : Type} [RFrom String E] (cond : Bool)
    (pre : String) (arg : Nat) (post : String)
    (rest : Except E α) : Except E α :=
  if !cond then failWith (fmt1 pre arg post) else rest

/-- `try_ref_clone!($expr)`: match on a borrowed result; on `Ok(ref val)` yield
the value to the surrounding expression (continuation `rest`); on
`Err(ref err)` early-return `Err(From::from(err.clone()))`. -/
def tryRefClone {T E α : Type} [RFrom H5Error E] (r : Except H5Error T)
    (rest : T → Except E α) : Except E α :=
  match r with
  | .ok val => rest val
  | .error err => .error (RFrom.fromVal (H5Error.clone err))

/-- C6: `ensure` with a false condition and a format string returns an error whose
message is exactly the formatted string — `ensure(false, "msg {}", 42)` yields the
message "msg 42" — and `ensure` with a true condition is a no-op: it produces no
error and just continues with the rest of the operation, whatever that is. -/
theorem ensure_false_formats_and_true_noop :
    (∀ rest : Except H5Error Unit,
      ensureFmt false "msg " 42 "" rest = .error (H5Error.mk "msg 42")) ∧
    (∀ (E α : Type) (inst : RFrom String E) (pre : String) (arg : Nat)
        (post : String) (rest : Except E α),
      ensureFmt true pre arg post rest = rest) := by
  constructor
  · intro rest
    rfl
  · intro E α inst pre arg post rest
    rfl

/-- C10: the two-argument non-format form of `ensure` accepts an arbitrary
error-value expression: with a false condition it behaves exactly as
`fail!(err)`, i.e. it returns `From::from(err)` for any `err` convertible into
the caller's error type, ignoring the rest of the operation. -/
theorem ensure_plain_form_fails_with_converted_error :
    ∀ (ε E α : Type) (inst : RFrom ε E) (err : ε) (rest : Except E α),
      ensureE false err rest = failWith err ∧
      ensureE false err rest = .error (RFrom.fromVal err) := by
  intro ε E α inst err rest
  exact ⟨rfl, rfl⟩

/-- C8: `try_ref_clone!` on a borrowed result yields the success value to the
surrounding expression when the result is `Ok`, and when the result is `Err` it
returns immediately — independently of the code that would follow — with a clone
of the error converted via `From` into the caller's declared error type. -/
theorem try_ref_clone_spec :
    ∀ (T E α : Type) (inst : RFrom H5Error E),
      (∀ (v : T) (rest : T → Except E α), tryRefClone (.ok v) rest = rest v) ∧
      (∀ (e : H5Error) (rest rest' : T → Except E α),
        tryRefClone (.error e) rest = .error (RFrom.fromVal (H5Error.clone e)) ∧
        tryRefClone (.error e) rest = tryRefClone (.error e) rest' ∧
        H5Error.clone e = e) := by
  intro T E α inst
  refine ⟨fun v rest => rfl, fun e rest rest' => ⟨rfl, rfl, rfl⟩⟩

/-- A Rust 1-tuple `(A,)`, the `Self` type of the arity-1 `impl_h5get!` instance. -/
structure Tup1 (α : Type) where
  fst : α
deriving DecidableEq, Repr

instance {α : Type} [Inhabited α] : Inhabited (Tup1 α) := ⟨⟨default⟩⟩

/-- Arity-1 `H5Get::h5get` from `impl_h5get!(a: A)`: allocate one
default-initialized output slot, call the foreign function on it inside the
checked locked call, and on success read the slot back as a 1-tuple.  The
foreign function `status = func(id, a*)` is embedded as a pure function from
the slot's initial contents to the status and the slot's final contents; the
lock is value-transparent (it is modelled separately below). -/
def h5get1 {α : Type} [Inhabited α] (func : hid_t → α → herr_t × α)
    (id : hid_t) : Except H5Error (Tup1 α) :=
  let a : α := default
  let r := func id a
  (h5check r.1).map fun _ => Tup1.mk r.2

/-- Arity-2 `H5Get::h5get` from `impl_h5get!(a: A, b: B)`. -/
def h5get2 {α β : Type} [Inhabited α] [Inhabited β]
    (func : hid_t → α → β → herr_t × α × β) (id : hid_t) :
    Except H5Error (α × β) :=
  let a : α := default
  let b : β := default
  let r := func id a b
  (h5check r.1).map fun _ => r.2

/-- Arity-3 `H5Get::h5get` from `impl_h5get!(a: A, b: B, c: C)`. -/
def h5get3 {α β γ : Type} [Inhabited α] [Inhabited β] [Inhabited γ]
    (func : hid_t → α → β → γ → herr_t × α × β × γ) (id : hid_t) :
    Except H5Error (α × β × γ) :=
  let a : α := default
  let b : β := default
  let c : γ := default
  let r := func id a b c
  (h5check r.1).map fun _ => r.2

/-- Arity-4 `H5Get::h5get` from `impl_h5get!(a: A, b: B, c: C, d: D)`. -/
def h5get4 {α β γ δ : Type} [Inhabited α] [Inhabited β] [Inhabited γ]
    [Inhabited δ] (func : hid_t → α → β → γ → δ → herr_t × α × β × γ × δ)
    (id : hid_t) : Except H5Error (α × β × γ × δ) :=
  let a : α := default
  let b : β := default
  let c : γ := default
  let d : δ := default
  let r := func id a b c d
  (h5check r.1).map fun _ => r.2

/-- The `H5Get::h5get_d` default method, defined once on the trait for every
implementing tuple type: `Self::h5get(func, id).unwrap_or_else(|_| Self::default())`. -/
def h5get_d {F σ : Type} [Inhabited σ]
    (h5getImpl : F → hid_t → Except H5Error σ) (func : F) (id : hid_t) : σ :=
  match h5getImpl func id with
  | .ok v => v
  | .error _ => default

/-- The single-type form of the `h5get!` macro:
`<(T,) as H5Get>::h5get(func, id).map(|x| x.0)`. -/
def h5getScalar {α : Type} [Inhabited α] (func : hid_t → α → herr_t × α)
    (id : hid_t) : Except H5Error α :=
  (h5get1 func id).map Tup1.fst

/-- The single-type form of the `h5get_d!` macro:
`<(T,) as H5Get>::h5get_d(func, id).0`. -/
def h5get_dScalar {α : Type} [Inhabited α] (func : hid_t → α → herr_t × α)
    (id : hid_t) : α :=
  (h5get_d h5get1 func id).fst

/-- `h5try!($expr)` followed by the rest of the enclosing operation:
`match h5call!($expr) { Ok(value) => value, Err(err) => return Err(From::from(err)) }`.
The locked region of `h5call!` is value-transparent (modelled separately below),
so at the value level `h5call!` is `h5check` of the expression's status. -/
def h5try {E α : Type} [RFrom H5Error E] (status : herr_t)
    (rest : herr_t → Except E α) : Except E α :=
  match h5check status with
  | .ok value => rest value
  | .error err => .error (RFrom.fromVal err)

/-- C1: for every foreign getter of arity 1..4 whose call on the
default-initialized output slots returns a non-negative status, `h5get`
returns `Ok` of exactly the tuple of values the function left in the slots,
in declared parameter order. -/
theorem h5get_success_returns_written_values
    {α β γ δ : Type} [Inhabited α] [Inhabited β] [Inhabited γ] [Inhabited δ]
    (f1 : hid_t → α → herr_t × α)
    (f2 : hid_t → α → β → herr_t × α × β)
    (f3 : hid_t → α → β → γ → herr_t × α × β × γ)
    (f4 : hid_t → α → β → γ → δ → herr_t × α × β × γ × δ)
    (id : hid_t)
    (h1 : 0 ≤ (f1 id default).1)
    (h2 : 0 ≤ (f2 id default default).1)
    (h3 : 0 ≤ (f3 id default default default).1)
    (h4 : 0 ≤ (f4 id default default default default).1) :
    h5get1 f1 id = .ok (Tup1.mk (f1 id default).2) ∧
    h5get2 f2 id = .ok (f2 id default default).2 ∧
    h5get3 f3 id = .ok (f3 id default default default).2 ∧
    h5get4 f4 id = .ok (f4 id default default default default).2 := by
  refine ⟨?_, ?_, ?_, ?_⟩
  · simp [h5get1, h5check, not_lt.mpr h1, Except.map]
  · simp [h5get2, h5check, not_lt.mpr h2, Except.map]
  · simp [h5get3, h5check, not_lt.mpr h3, Except.map]
  · simp [h5get4, h5check, not_lt.mpr h4, Except.map]

/-- Witness for C1 at concrete getters over `Int` that write `id + k` into each
slot and return status `0`. -/
theorem h5get_success_returns_written_values_witness :
    h5get1 (fun id a => (0, a + id + 1)) 5 = .ok (Tup1.mk 6) ∧
    h5get2 (fun id a b => (0, a + id, b + id + 1)) 5 = .ok (5, 6) ∧
    h5get3 (fun id a b c => (0, a + id, b + id + 1, c + id + 2)) 5 =
      .ok (5, 6, 7) ∧
    h5get4 (fun id a b c d => (0, a + id, b + id + 1, c + id + 2, d + id + 3))
      5 = .ok (5, 6, 7, 8) := by
  have h := h5get_success_returns_written_values
    (α := Int) (β := Int) (γ := Int) (δ := Int)
    (fun id a => (0, a + id + 1))
    (fun id a b => (0, a + id, b + id + 1))
    (fun id a b c => (0, a + id, b + id + 1, c + id + 2))
    (fun id a b c d => (0, a + id, b + id + 1, c + id + 2, d + id + 3))
    5 (by decide) (by decide) (by decide) (by decide)
  simpa using h

/-- C2: for every foreign getter whose call on the default-initialized slots
returns a negative status, `h5get` returns `Err` — it never substitutes default
values — and `h5get_d` returns the tuple whose components are each output
type's default value. -/
theorem h5get_failure_err_and_default
    {α β γ δ : Type} [Inhabited α] [Inhabited β] [Inhabited γ] [Inhabited δ]
    (f1 : hid_t → α → herr_t × α)
    (f2 : hid_t → α → β → herr_t × α × β)
    (f3 : hid_t → α → β → γ → herr_t × α × β × γ)
    (f4 : hid_t → α → β → γ → δ → herr_t × α × β × γ × δ)
    (id : hid_t)
    (h1 : (f1 id default).1 < 0)
    (h2 : (f2 id default default).1 < 0)
    (h3 : (f3 id default default default).1 < 0)
    (h4 : (f4 id default default default default).1 < 0) :
    h5get1 f1 id = .error h5errorStack ∧
    h5get2 f2 id = .error h5errorStack ∧
    h5get3 f3 id = .error h5errorStack ∧
    h5get4 f4 id = .error h5errorStack ∧
    h5get_d h5get1 f1 id = Tup1.mk default ∧
    h5get_d h5get2 f2 id = (default, default) ∧
    h5get_d h5get3 f3 id = (default, default, default) ∧
    h5get_d h5get4 f4 id = (default, default, default, default) := by
  have e1 : h5get1 f1 id = .error h5errorStack := by
    simp [h5get1, h5check, h1, Except.map]
  have e2 : h5get2 f2 id = .error h5errorStack := by
    simp [h5get2, h5check, h2, Except.map]
  have e3 : h5get3 f3 id = .error h5errorStack := by
    simp [h5get3, h5check, h3, Except.map]
  have e4 : h5get4 f4 id = .error h5errorStack := by
    simp [h5get4, h5check, h4, Except.map]
  refine ⟨e1, e2, e3, e4, ?_, ?_, ?_, ?_⟩
  · simp only [h5get_d, e1] <;> rfl
  · simp only [h5get_d, e2] <;> rfl
  · simp only [h5get_d, e3] <;> rfl
  · simp only [h5get_d, e4] <;> rfl

/-- Witness for C2 at concrete getters over `Int` returning status `-1`. -/
theorem h5get_failure_err_and_default_witness :
    h5get1 (fun _ (a : Int) => ((-1 : Int), a + 9)) 3 = .error h5errorStack ∧
    h5get_d h5get1 (fun _ (a : Int) => ((-1 : Int), a + 9)) 3 =
      Tup1.mk (0 : Int) ∧
    h5get_d h5get2 (fun _ (a b : Int) => ((-1 : Int), a + 9, b + 9)) 3 =
      ((0 : Int), (0 : Int)) ∧
    h5get_d h5get3 (fun _ (a b c : Int) => ((-1 : Int), a + 9, b + 9, c + 9))
      3 = ((0 : Int), (0 : Int), (0 : Int)) ∧
    h5get_d h5get4
      (fun _ (a b c d : Int) => ((-1 : Int), a + 9, b + 9, c + 9, d + 9)) 3 =
      ((0 : Int), (0 : Int), (0 : Int), (0 : Int)) := by
  have h := h5get_failure_err_and_default
    (α := Int) (β := Int) (γ := Int) (δ := Int)
    (fun _ a => ((-1 : Int), a + 9))
    (fun _ a b => ((-1 : Int), a + 9, b + 9))
    (fun _ a b c => ((-1 : Int), a + 9, b + 9, c + 9))
    (fun _ a b c d => ((-1 : Int), a + 9, b + 9, c + 9, d + 9))
    3 (by decide) (by decide) (by decide) (by decide)
  exact ⟨h.1, h.2.2.2.2.1, h.2.2.2.2.2.1, h.2.2.2.2.2.2.1, h.2.2.2.2.2.2.2⟩

/-- C9: the trait-level default method `h5get_d` agrees with `h5get` on
success: whenever the `h5get` implementation returns `Ok t`, `h5get_d` returns
exactly `t` — defaults are substituted only on the error path. -/
theorem h5get_d_agrees_with_h5get_on_success
    {F σ : Type} [Inhabited σ] (h5getImpl : F → hid_t → Except H5Error σ)
    (func : F) (id : hid_t) (t : σ)
    (h : h5getImpl func id = .ok t) :
    h5get_d h5getImpl func id = t := by
  simp [h5get_d, h]

/-- Witness for C9 at a concrete arity-1 getter over `Int`. -/
theorem h5get_d_agrees_with_h5get_on_success_witness :
    h5get_d h5get1 (fun id (a : Int) => ((0 : Int), a + id)) 7 =
      Tup1.mk (7 : Int) := by
  exact h5get_d_agrees_with_h5get_on_success h5get1
    (fun id (a : Int) => ((0 : Int), a + id)) 7 (Tup1.mk 7) (by rfl)

/-- C7: for arity 1 the result is presented as a bare scalar, not a 1-tuple:
the single-type forms of `h5get!` and `h5get_d!` project the first (only)
component out of the 1-tuple before returning it. -/
theorem h5get_scalar_projects_tuple1
    {α : Type} [Inhabited α] (func : hid_t → α → herr_t × α) (id : hid_t)
    (t : Tup1 α) (h : h5get1 func id = .ok t) :
    h5getScalar func id = .ok t.fst ∧
    h5get_dScalar func id = (h5get_d h5get1 func id).fst ∧
    h5getScalar func id = (h5get1 func id).map Tup1.fst := by
  refine ⟨?_, rfl, rfl⟩
  simp [h5getScalar, h, Except.map]

/-- Witness for C7 at a concrete arity-1 getter over `Int`. -/
theorem h5get_scalar_projects_tuple1_witness :
    h5getScalar (fun id (a : Int) => ((0 : Int), a + id)) 4 = .ok (4 : Int) := by
  exact (h5get_scalar_projects_tuple1 (fun id (a : Int) => ((0 : Int), a + id))
    4 (Tup1.mk 4) (by rfl)).1

/-- C5: `h5try!` on a checked call that succeeds yields the raw status value
itself to the surrounding expression; on a checked call that fails it returns
immediately from the enclosing operation with the error converted via the
generic `From`-conversion, executing none of the subsequent code (its result
does not depend on the continuation). -/
theorem h5try_success_yields_failure_returns
    {E α : Type} [inst : RFrom H5Error E] (status : herr_t)
    (rest rest' : herr_t → Except E α) :
    (0 ≤ status → h5try status rest = rest status) ∧
    (status < 0 →
      h5try status rest = .error (RFrom.fromVal h5errorStack) ∧
      h5try status rest = h5try status rest') := by
  constructor
  · intro h
    simp [h5try, h5check, not_lt.mpr h]
  · intro h
    constructor <;> simp [h5try, h5check, h]

/-- Witness for C5 at statuses `3` (success) and `-1` (failure) with
continuations into `Except H5Error Int`. -/
theorem h5try_success_yields_failure_returns_witness :
    h5try (E := H5Error) 3 (fun v => .ok (v + 1)) = .ok 4 ∧
    h5try (E := H5Error) (-1) (fun v => .ok (v + 1)) =
      .error h5errorStack := by
  constructor
  · have h := (h5try_success_yields_failure_returns (E := H5Error)
      (3 : herr_t) (fun v => .ok (v + 1)) (fun v => .ok (v + 1))).1
      (by decide)
    rw [h]
    rfl
  · have h := (h5try_success_yields_failure_returns (E := H5Error)
      (-1 : herr_t) (fun v => .ok (v + 1)) (fun v => .ok (v + 2))).2
      (by decide)
    exact h.1

/-- Events recorded while running `h5lock!`-wrapped code: lock acquisition,
lock release, and the status check, tagged with the lock depth at check time. -/
inductive LEvent
  | acq
  | rel
  | chk (status : herr_t) (depth : Nat)
deriving DecidableEq, Repr

/-- Single-thread view of the global serializer: the current lock depth
(reentrant acquisitions by the running thread) and the event history. -/
structure LockCtx where
  depth : Nat
  trace : List LEvent
deriving DecidableEq, Repr

/-- Acquiring the reentrant lock: one more level of depth. -/
def enterLock (s : LockCtx) : LockCtx :=
  LockCtx.mk (s.depth + 1) (s.trace ++ [.acq])

/-- Releasing the reentrant lock: one less level of depth. -/
def exitLock (s : LockCtx) : LockCtx :=
  LockCtx.mk (s.depth - 1) (s.trace ++ [.rel])

/-- Modelled from the spec (§4.1): `h5lock!` / `sync`, `run(closure) -> T` —
acquire the lock, execute the body while held, release, return the body's
result (`crate::sync::sync` is not under the given source tree). -/
def h5lockT {α : Type} (body : LockCtx → α × LockCtx) (s : LockCtx) :
    α × LockCtx :=
  let r := body (enterLock s)
  (r.1, exitLock r.2)

/-- `h5check` with its event recorded: the check leaves the lock depth alone
and notes the depth at which it ran. -/
def h5checkT (status : herr_t) (s : LockCtx) : Except H5Error herr_t × LockCtx :=
  (h5check status, LockCtx.mk s.depth (s.trace ++ [.chk status s.depth]))

/-- `h5call!($expr)` as written in the source:
`h5lock!($crate::error::h5check($expr))` — the expression runs first, then the
check, both inside the locked region. -/
def h5callT (e : LockCtx → herr_t × LockCtx) (s : LockCtx) :
    Except H5Error herr_t × LockCtx :=
  h5lockT (fun s1 => let r := e s1; h5checkT r.1 r.2) s

/-- The spec's words for the composed helper (§4.2):
`call(closure) = run(|| check(closure()))`. -/
def h5callSpec (e : LockCtx → herr_t × LockCtx) (s : LockCtx) :
    Except H5Error herr_t × LockCtx :=
  h5lockT (fun s1 => let r := e s1; h5checkT r.1 r.2) s

/-- C3: `h5call!(e)` is definitionally `h5lock!(h5check(e))`, and consequently
for any expression whose own locking is balanced the status check runs at lock
depth `depth + 1 > 0` — inside the locked region — and its event precedes the
final lock release in the history. -/
theorem h5call_equals_locked_check
    (e : LockCtx → herr_t × LockCtx)
    (he : ∀ s, ((e s).2).depth = s.depth) :
    (∀ s, h5callT e s = h5callSpec e s) ∧
    (∀ s, (h5callT e s).2.trace =
        ((e (enterLock s)).2).trace ++
          [.chk (e (enterLock s)).1 (s.depth + 1), .rel] ∧
      0 < s.depth + 1) := by
  refine ⟨fun s => rfl, fun s => ⟨?_, Nat.succ_pos _⟩⟩
  have hd : ((e (enterLock s)).2).depth = s.depth + 1 := by
    rw [he (enterLock s)]
    rfl
  simp [h5callT, h5lockT, h5checkT, exitLock, hd]

/-- Witness for C3: a trivial expression run from an unlocked empty history
produces exactly acquire, check at depth 1, release. -/
theorem h5call_equals_locked_check_witness :
    h5callT (fun s => ((5 : herr_t), s)) (LockCtx.mk 0 []) =
      h5callSpec (fun s => ((5 : herr_t), s)) (LockCtx.mk 0 []) ∧
    (h5callT (fun s => ((5 : herr_t), s)) (LockCtx.mk 0 [])).2.trace =
      [LEvent.acq, LEvent.chk 5 1, LEvent.rel] := by
  have h := h5call_equals_locked_check (fun s => ((5 : herr_t), s))
    (fun s => rfl)
  refine ⟨h.1 (LockCtx.mk 0 []), ?_⟩
  have h2 := (h.2 (LockCtx.mk 0 [])).1
  rw [h2]
  rfl

/-- Thread-tagged lock events for the process-wide view of the serializer. -/
inductive REvent
  | acq (t : Nat)
  | rel (t : Nat)
deriving DecidableEq, Repr

/-- Modelled from the spec (§3, §4.1): the process-wide reentrant mutex
(`GlobalLock`): which thread currently owns it (`none` when free), how many
times the owner has re-acquired it, and the history of lock events. -/
structure RSys where
  owner : Option Nat
  count : Nat
  trace : List REvent
deriving DecidableEq, Repr

/-- A thread's attempt to acquire the reentrant lock: succeeds when the lock
is free or already owned by the same thread (one more nesting level); any
other owner means the thread would block (`none`). -/
def tryAcq (t : Nat) (s : RSys) : Option RSys :=
  match s.owner with
  | none => some (RSys.mk (some t) (s.count + 1) (s.trace ++ [.acq t]))
  | some o =>
    if o = t then some (RSys.mk (some t) (s.count + 1) (s.trace ++ [.acq t]))
    else none

/-- Releasing one nesting level of the reentrant lock; the last release frees it. -/
def relLock (t : Nat) (s : RSys) : RSys :=
  RSys.mk (if s.count ≤ 1 then none else s.owner) (s.count - 1)
    (s.trace ++ [.rel t])

/-- Modelled from the spec (§4.1): `sync` / the locked-call wrapper run by
thread `t`: acquire (blocking — modelled as `none` — if another thread owns the
lock), run the body while held, release on exit, return the body's result. -/
def syncT {α : Type} (t : Nat) (body : RSys → Option (α × RSys)) (s : RSys) :
    Option (α × RSys) :=
  (tryAcq t s).bind fun s1 => (body s1).map fun r => (r.1, relLock t r.2)

/-- Thread `t` is executing inside the locked region in state `s`. -/
def inRegion (t : Nat) (s : RSys) : Prop :=
  s.owner = some t ∧ 0 < s.count

/-- C4: the locked-call wrapper is reentrant and mutually exclusive: (i) in any
state at most one thread is inside the locked region; (ii) a thread already
owning the lock re-acquires it without blocking; (iii) a locked-call nested
inside another locked-call's closure on the same thread completes — no
deadlock — with the inner acquire/release pair properly nested inside the
outer one and the lock restored to its initial state. -/
theorem h5lock_reentrant_and_exclusive
    {α : Type} (t : Nat) (x : α) (s : RSys)
    (hs : (s.owner = none ∧ s.count = 0) ∨ (s.owner = some t ∧ 0 < s.count)) :
    (∀ (s' : RSys) (t1 t2 : Nat), inRegion t1 s' → inRegion t2 s' → t1 = t2) ∧
    (∀ (s' : RSys), s'.owner = some t → (tryAcq t s').isSome = true) ∧
    syncT t (fun s1 => syncT t (fun s2 => some (x, s2)) s1) s =
      some (x, RSys.mk s.owner s.count
        (s.trace ++ [.acq t, .acq t, .rel t, .rel t])) := by
  refine ⟨?_, ?_, ?_⟩
  · intro s' t1 t2 h1 h2
    have h12 : some t1 = some t2 := h1.1.symm.trans h2.1
    exact Option.some.inj h12
  · intro s' h
    simp [tryAcq, h]
  · obtain ⟨o, c, tr⟩ := s
    rcases hs with ⟨h1, h2⟩ | ⟨h1, h2⟩
    · simp only at h1 h2
      subst h1
      subst h2
      simp [syncT, tryAcq, relLock]
    · simp only at h1 h2
      subst h1
      have hc2 : ¬ (c + 1 + 1 ≤ 1) := by omega
      have hc1 : ¬ (c + 1 ≤ 1) := by omega
      simp [syncT, tryAcq, relLock, hc1, hc2]
      omega

/-- Witness for C4: thread `0` nests two locked-calls from the free lock; both
complete, the inner pair sits inside the outer pair, and the lock ends free. -/
theorem h5lock_reentrant_and_exclusive_witness :
    syncT 0 (fun s1 => syncT 0 (fun s2 => some ((7 : Int), s2)) s1)
      (RSys.mk none 0 []) =
      some ((7 : Int), RSys.mk none 0
        [REvent.acq 0, REvent.acq 0, REvent.rel 0, REvent.rel 0]) := by
  have h := (h5lock_reentrant_and_exclusive 0 (7 : Int) (RSys.mk none 0 [])
    (Or.inl ⟨rfl, rfl⟩)).2.2
  simpa using h
